import Mathlib

/-!
Verification of the demand-forecast pipeline in `src/app.py` against its
natural-language specification.

The development is a shallow embedding of the program:

* pandas cell values are `Cell` (string, numeric as `ℚ`, or `NaN`);
* column labels after the month-normalisation rename are `Label`
  (a plain string, a `pd.Timestamp` pinned to the first of a month, or `NaT`);
* fallible steps return `Except PError _`, mirroring the Python exceptions the
  library raises (`KeyError`, `ValueError`, `TypeError`).

Numeric values are embedded as rationals: every quantity exercised below is a
small integer, where float and rational arithmetic agree exactly.
-/

/-- Calendar month, the payload of a first-of-month `pd.Timestamp`. -/
structure Month where
  year : Nat
  month : Nat
deriving DecidableEq, Repr

/-- Result of `parse_month_column`.  With `errors='coerce'`,
`pd.to_datetime` returns either a `Timestamp` or `NaT`; it does not raise on a
non-matching string, so the function never returns Python `None`. -/
inductive MonthParse where
  | ts (m : Month)
  | nat
deriving DecidableEq, Repr

/-- ASCII lowercasing of one character; `strptime`'s `%b` month-abbreviation
matching is case-insensitive. -/
def lower_char (c : Char) : Char :=
  if 65 ≤ c.toNat ∧ c.toNat ≤ 90 then Char.ofNat (c.toNat + 32) else c

/-- The `%b` month abbreviations of the C locale, mapped to month numbers. -/
def month_num (s : String) : Option Nat :=
  if s = "jan" then some 1
  else if s = "feb" then some 2
  else if s = "mar" then some 3
  else if s = "apr" then some 4
  else if s = "may" then some 5
  else if s = "jun" then some 6
  else if s = "jul" then some 7
  else if s = "aug" then some 8
  else if s = "sep" then some 9
  else if s = "oct" then some 10
  else if s = "nov" then some 11
  else if s = "dec" then some 12
  else none

/-- Full-string match of a label against the format `%b-%y`
(abbreviated month, dash, exactly two digits; `exact=True` is the
`pd.to_datetime` default, and an unconverted remainder coerces to `NaT`).
Two-digit years 00-68 map to 2000-2068 and 69-99 to 1969-1999, as in
Python's `_strptime`.  The day defaults to the first of the month. -/
def parse_b_y (col : String) : Option Month :=
  match col.toList.map lower_char with
  | [a, b, c, dash, d, e] =>
    if dash = '-' ∧ d.isDigit ∧ e.isDigit then
      match month_num (String.mk [a, b, c]) with
      | some m =>
        let yy := (d.toNat - 48) * 10 + (e.toNat - 48)
        some ⟨if yy ≤ 68 then 2000 + yy else 1900 + yy, m⟩
      | none => none
    else none
  | _ => none

/-- Embedding of `parse_month_column` (src/app.py lines 14-22).

The body is
`pd.to_datetime(col, format='%b-%y', errors='coerce')` inside a `try`, with a
fallback to `format='%d/%m/%Y'` in the `except` arm.  Because
`errors='coerce'` turns every parse failure into a returned `NaT` instead of an
exception, the first call never raises: the function returns a `Timestamp` when
the label matches `%b-%y` and `NaT` otherwise, and the `'%d/%m/%Y'` arm is
unreachable.  In particular `"1/02/2025"` yields `NaT`, not February 2025. -/
def parse_month_column (col : String) : MonthParse :=
  match parse_b_y col with
  | some m => MonthParse.ts m
  | none => MonthParse.nat

/-- A pandas column label as it can occur in the forecast frame: the original
string, a first-of-month `Timestamp`, or `NaT`. -/
inductive Label where
  | str (s : String)
  | ts (m : Month)
  | nat
deriving DecidableEq, Repr

/-- The value a label is renamed to by the mapping
`{col: parse_month_column(col) for col in df.columns if isinstance(col, str)}`
(src/app.py lines 37-38 and 113).  Every string label is a key of the mapping,
so non-date labels such as `"Market"` are renamed to `NaT` as well. -/
def rename_label : Label → Label
  | Label.str s =>
    match parse_month_column s with
    | MonthParse.ts m => Label.ts m
    | MonthParse.nat => Label.nat
  | Label.ts m => Label.ts m
  | Label.nat => Label.nat

/-- The month candidates of src/app.py lines 41 and 114:
`[col for col in df.columns if isinstance(col, pd.Timestamp)]`.
`NaT` is not an instance of `pd.Timestamp`, so `NaT`-renamed labels are
excluded. -/
def available_months (cols : List Label) : List Month :=
  cols.filterMap (fun l =>
    match l with
    | Label.ts m => some m
    | _ => none)

/-- Claim C2: `parse_month_column` maps `"feb-25"` to February 2025; it maps
`"1/02/2025"` to `NaT` rather than February 2025, because `errors='coerce'`
makes the first `to_datetime` call return `NaT` instead of raising, leaving the
`'%d/%m/%Y'` arm dead — contradicting the function's own docstring, which
promises to convert `'1/02/2025'`; and a non-date label such as `"Market"`
also becomes `NaT` and is never a month candidate. -/
theorem c2_parse_month_column_eval :
    parse_month_column "feb-25" = MonthParse.ts ⟨2025, 2⟩
    ∧ parse_month_column "1/02/2025" = MonthParse.nat
    ∧ parse_month_column "Market" = MonthParse.nat
    ∧ available_months [rename_label (Label.str "Market"),
        rename_label (Label.str "1/02/2025")] = [] := by
  decide

/-- A pandas cell of the forecast frame: a string, a (float) number embedded as
a rational, or `NaN` (pandas' missing value). -/
inductive Cell where
  | s (v : String)
  | n (q : ℚ)
  | na
deriving DecidableEq, Repr

/-- The forecast DataFrame: an ordered list of column labels and rectangular
rows of cells (a missing position reads as `NaN`, matching how pandas pads a
ragged sheet). -/
structure Frame where
  cols : List Label
  rows : List (List Cell)
deriving Repr

/-- Position of a label among the columns, `none` when absent.  Indexing a
pandas frame with an absent label raises `KeyError`. -/
def col_index? : List Label → Label → Option Nat
  | [], _ => none
  | c :: cs, l => if c = l then some 0 else (col_index? cs l).map (· + 1)

/-- Errors surfaced by the pipeline, as the Python code actually raises them.
`keyError c` is a `KeyError` naming the missing column; `noValidMonthColumns`
is the dedicated `ValueError` of src/app.py lines 43-44; `typeError` is the
`TypeError` of comparing strings with numbers while sorting;
`nonFiniteToInt` is the `ValueError` that `.astype(int)` raises on any
`NaN`/`inf` entry (src/app.py line 53).  `zeroTotalQuantity` is the dedicated
condition named by the specification; no code path produces it — the
constructor exists so that statements about it can be written down. -/
inductive PError where
  | keyError (col : String)
  | noValidMonthColumns
  | typeError
  | nonFiniteToInt
  | zeroTotalQuantity
deriving DecidableEq, Repr

/-- Embedding of `str(x)` as applied by `.astype(str)`: strings unchanged, numbers
stringified, and `NaN` stringified to the literal `"nan"`. -/
def astype_str_cell : Cell → String
  | Cell.s v => v
  | Cell.n q => toString q
  | Cell.na => "nan"

/-- Line 30: `df['Product ID (PID)'] = df['Product ID (PID)'].astype(str)`;
`KeyError` when the column is absent. -/
def astype_pid_col (f : Frame) : Except PError Frame :=
  match col_index? f.cols (Label.str "Product ID (PID)") with
  | some i =>
    Except.ok ⟨f.cols, f.rows.map (fun r => r.set i (Cell.s (astype_str_cell (r.getD i Cell.na))))⟩
  | none => Except.error (PError.keyError "Product ID (PID)")

/-- Line 34: `df_forecast[df_forecast['Market'] == country]`.  The elementwise
`==` against a string is `False` for numeric or `NaN` cells. -/
def market_filter (f : Frame) (country : String) : Except PError Frame :=
  match col_index? f.cols (Label.str "Market") with
  | some i =>
    Except.ok ⟨f.cols, f.rows.filter (fun r => decide (r.getD i Cell.na = Cell.s country))⟩
  | none => Except.error (PError.keyError "Market")

/-- Lines 37-38: rename every string column label through
`parse_month_column`. -/
def rename_months (f : Frame) : Frame :=
  ⟨f.cols.map rename_label, f.rows⟩

/-- Days from a fixed epoch to the first of the given month (proleptic
Gregorian, valid for years ≥ 1).  `pd.Timestamp` subtraction measures in days;
both operands in line 46 are first-of-month timestamps. -/
def days_from_civil (m : Month) : Nat :=
  let yy := if m.month ≤ 2 then m.year - 1 else m.year
  let mm := if m.month ≤ 2 then m.month + 9 else m.month - 3
  365 * yy + yy / 4 + yy / 400 - yy / 100 + (153 * mm + 2) / 5

/-- Distance `abs(ts_a - ts_b)` in days for first-of-month timestamps. -/
def month_dist (a b : Month) : Nat :=
  max (days_from_civil a) (days_from_civil b) - min (days_from_civil a) (days_from_civil b)

/-- Line 46: `min(available_months, key=lambda x: abs(x - month))`.
Python's `min` keeps the first element attaining the minimal key. -/
def closest_month (first : Month) (rest : List Month) (target : Month) : Month :=
  rest.foldl (fun best c => if month_dist c target < month_dist best target then c else best) first

/-- Reading a cell of the selected metric column.  Numbers and `NaN` are the
values the sort/percentage code handles; a string cell mixed into a numeric
column makes the pandas comparison-based sort raise `TypeError`.  (An
all-string column would instead sort lexicographically in pandas; no claim
exercises that case, and the model reports `TypeError` for any string cell.) -/
def metric_cell : Cell → Except PError (Option ℚ)
  | Cell.n q => Except.ok (some q)
  | Cell.na => Except.ok none
  | Cell.s _ => Except.error PError.typeError

/-- Projection of line 49, `df[['Product ID (PID)', selected_month]]`, to
(pid, metric) pairs; `KeyError` when either label is absent from the renamed
frame. -/
def pairs_of_rows (pidIdx mIdx : Nat) : List (List Cell) → Except PError (List (String × Option ℚ))
  | [] => Except.ok []
  | r :: rs =>
    match metric_cell (r.getD mIdx Cell.na) with
    | Except.error e => Except.error e
    | Except.ok v =>
      match pairs_of_rows pidIdx mIdx rs with
      | Except.ok ps => Except.ok ((astype_str_cell (r.getD pidIdx Cell.na), v) :: ps)
      | Except.error e => Except.error e

/-- Column selection of line 49.  pandas checks the requested labels against
the frame's columns and raises `KeyError` for a missing one; after the line-38
rename the label `'Product ID (PID)'` no longer exists (it became `NaT`). -/
def select_pid_month (f : Frame) (sel : Month) : Except PError (List (String × Option ℚ)) :=
  match col_index? f.cols (Label.str "Product ID (PID)") with
  | none => Except.error (PError.keyError "Product ID (PID)")
  | some pidIdx =>
    match col_index? f.cols (Label.ts sel) with
    | none => Except.error (PError.keyError "selected month")
    | some mIdx => pairs_of_rows pidIdx mIdx f.rows

/-- Metric value of a (pid, metric) pair; the `getD 0` default is only read
under an `isSome` hypothesis or inside the `NaN`-free part of the sort. -/
def row_val (r : String × Option ℚ) : ℚ :=
  r.2.getD 0

/-- Descending stable insertion: a row is placed before the first row of
strictly smaller value, so equal values keep their relative order. -/
def insert_desc (x : String × Option ℚ) : List (String × Option ℚ) → List (String × Option ℚ)
  | [] => [x]
  | y :: ys => if row_val x < row_val y then y :: insert_desc x ys else x :: y :: ys

/-- Line 49's `sort_values(by=selected_month, ascending=False)`.  pandas
separates `NaN` rows, appends them last (`na_position='last'` default), and
argsorts the remaining values, reversing both the input and the result for a
descending sort — so a stable kind yields ties in original input order.  The
code leaves `kind` at its default `'quicksort'` (numpy introsort), which is
insertion sort — stable — on spans of at most 16 elements, and has
implementation-defined tie order on longer spans; the model uses a stable
kernel, exact for the insertion-sort regime. -/
def sort_desc (rows : List (String × Option ℚ)) : List (String × Option ℚ) :=
  (rows.filter (fun r => r.2.isSome)).foldr insert_desc []
    ++ rows.filter (fun r => r.2.isNone)

/-- Line 49's trailing `.head(20)`. -/
def top_20 (rows : List (String × Option ℚ)) : List (String × Option ℚ) :=
  (sort_desc rows).take 20

/-- Line 52: `top_20_pids_df[selected_month].sum()` — pandas sums with
`skipna=True`, so `NaN` entries contribute nothing and an all-`NaN` or empty
column sums to `0`. -/
def total_quantity (rows : List (String × Option ℚ)) : ℚ :=
  (rows.filterMap (fun r => r.2)).sum

/-- An intermediate float of the share computation: finite, `NaN`, or a signed
infinity. -/
inductive FVal where
  | fin (q : ℚ)
  | nan
  | inf
  | ninf
deriving DecidableEq, Repr

/-- One entry of `top_20_pids_df[selected_month] / total_quantity * 100`
(line 53).  Division by a zero total does not raise in pandas: `0/0` is `NaN`
and `±x/0` is `±inf`; a `NaN` operand propagates. -/
def share_val (total : ℚ) : Option ℚ → FVal
  | none => FVal.nan
  | some v =>
    if total = 0 then
      if v = 0 then FVal.nan else if 0 < v then FVal.inf else FVal.ninf
    else FVal.fin (v / total * 100)

/-- Rounding `round()` half-to-even (banker's rounding), the rounding used by numpy's
`.round(0)` and Python's built-in `round`. -/
def roundHalfEven (q : ℚ) : ℤ :=
  if q - (⌊q⌋ : ℚ) < 1/2 then ⌊q⌋
  else if (1 : ℚ)/2 < q - (⌊q⌋ : ℚ) then ⌊q⌋ + 1
  else if ⌊q⌋ % 2 = 0 then ⌊q⌋ else ⌊q⌋ + 1

/-- Line 53's `.round(0).astype(int)` over the share column.  `.round(0)`
fixes finite entries to whole numbers (half-to-even) and leaves `NaN`/`inf`
in place; `.astype(int)` then raises
`ValueError: Cannot convert non-finite values (NA or inf) to integer` if any
entry is non-finite, and otherwise truncates — the identity on the already
whole numbers. -/
def fvals_to_ints : List FVal → Except PError (List ℤ)
  | [] => Except.ok []
  | FVal.fin q :: rest =>
    match fvals_to_ints rest with
    | Except.ok zs => Except.ok (roundHalfEven q :: zs)
    | Except.error e => Except.error e
  | FVal.nan :: _ => Except.error PError.nonFiniteToInt
  | FVal.inf :: _ => Except.error PError.nonFiniteToInt
  | FVal.ninf :: _ => Except.error PError.nonFiniteToInt

/-- The integer percentages of the `'% of Total'` column (lines 52-53); the
denominator is the sum over the top-20 subset only. -/
def percent_ints (rows : List (String × Option ℚ)) : Except PError (List ℤ) :=
  fvals_to_ints ((top_20 rows).map (fun r => share_val (total_quantity (top_20 rows)) r.2))

/-- Line 53's final `.astype(str) + '%'`. -/
def percent_col (rows : List (String × Option ℚ)) : Except PError (List String) :=
  match percent_ints rows with
  | Except.ok zs => Except.ok (zs.map (fun z => toString z ++ "%"))
  | Except.error e => Except.error e

/-- Lines 49-53 as one stage: the top-20 rows of the two-column frame paired
with their rendered `'% of Total'` strings. -/
def rank_percent (rows : List (String × Option ℚ)) :
    Except PError (List (String × Option ℚ × String)) :=
  match percent_col rows with
  | Except.ok ps => Except.ok (List.zipWith (fun r p => (r.1, r.2, p)) (top_20 rows) ps)
  | Except.error e => Except.error e

/-- Python `mpl.endswith(pid)`: literal suffix test (a string is a suffix of itself,
and the empty string is a suffix of everything, exactly as in Python). -/
def mpl_ends_with (mpl pid : String) : Bool :=
  pid.toList.isSuffixOf mpl.toList

/-- One row of the catalog feed restricted to the two columns the code uses;
either field may be missing (`NaN`). -/
structure FeedRow where
  mpl : Option String
  link : Option String
deriving DecidableEq, Repr

/-- Embedding of `.astype(str)` on an optional string: a missing value stringifies to the
literal `"nan"`. -/
def astype_str_opt : Option String → String
  | some v => v
  | none => "nan"

/-- Lines 31 and 56-57: `data_feed['MPL_PRODUCT_ID'].astype(str)` followed by
`data_feed[['MPL_PRODUCT_ID', 'LINK']].dropna()`.  Because the `astype(str)`
of line 31 runs first, a missing `MPL_PRODUCT_ID` has already become the
non-null string `"nan"`, so `dropna` only ever removes rows whose `LINK` is
missing. -/
def data_feed_links (feed : List FeedRow) : List (String × String) :=
  feed.filterMap (fun r =>
    match r.link with
    | some l => some (astype_str_opt r.mpl, l)
    | none => none)

/-- Line 60's dict comprehension
`{pid: mpl for pid in top20 for mpl in links if mpl.endswith(pid)}`: for a
fixed `pid` each later matching `mpl` overwrites the earlier one, so the entry
kept is the last match in catalog order; a `pid` with no match has no entry. -/
def pid_map_lookup (mpls : List String) (pid : String) : Option String :=
  (mpls.filter (fun m => mpl_ends_with m pid)).getLast?

/-- Line 61's `Series.replace(pid_map)` on one top-20 row: the pid is replaced
by its mapping when an entry exists and passes through unchanged otherwise
(a single pass, no chaining). -/
def replace_one (mpls : List String) (r : String × Option ℚ × String) :
    String × Option ℚ × String :=
  match pid_map_lookup mpls r.1 with
  | some m => (m, r.2)
  | none => r

/-- Lines 60-61 over the whole top-20 table. -/
def replace_top20 (t20 : List (String × Option ℚ × String)) (links : List (String × String)) :
    List (String × Option ℚ × String) :=
  t20.map (replace_one (links.map (fun p => p.1)))

/-- Worker for `drop_duplicates`: drop every pair whose key was already
seen. -/
def drop_dup_aux (seen : List String) : List (String × String) → List (String × String)
  | [] => []
  | p :: rest =>
    if p.1 ∈ seen then drop_dup_aux seen rest
    else p :: drop_dup_aux (p.1 :: seen) rest

/-- Embedding of `drop_duplicates('Product ID (PID)')` at line 64: keep the first
occurrence of each key, in input order. -/
def drop_duplicates_first (l : List (String × String)) : List (String × String) :=
  drop_dup_aux [] l

/-- A row of the final merged table: pid (post-replacement), metric value,
rendered percentage, and the left-joined link (`none` when the join found no
catalog row, rendered as `N/A`/`NaN` downstream). -/
structure MergedRow where
  pid : String
  value : Option ℚ
  pct : String
  link : Option String
deriving DecidableEq, Repr

/-- Line 64's left join for one row, against the deduplicated catalog: the
unique row with an equal key supplies the link, otherwise the link is null. -/
def merge_one (dd : List (String × String)) (r : String × Option ℚ × String) : MergedRow :=
  { pid := r.1
    value := r.2.1
    pct := r.2.2
    link := ((dd.find? (fun q => q.1 == r.1)).map (fun q => q.2)) }

/-- Line 64: `top_20_pids_df.merge(data_feed_links.drop_duplicates(...), on=...,
how='left')`. -/
def merge_links (t20 : List (String × Option ℚ × String)) (links : List (String × String)) :
    List MergedRow :=
  t20.map (merge_one (drop_duplicates_first links))

/-- Embedding of `process_data` (src/app.py lines 24-66), step for step and in
the source's evaluation order: pid `astype(str)` (line 30; the feed's line-31
`astype` is folded into `data_feed_links`), market filter (line 34), month
rename (lines 37-38), month candidates and the dedicated no-month `ValueError`
(lines 41-44), closest-month selection (line 46), two-column projection with
sort/head (line 49), percentage column (lines 52-53), link dropna (lines
56-57), suffix reconciliation and replacement (lines 60-61), and the left
join (line 64). -/
def process_data (df_forecast : Frame) (data_feed : List FeedRow) (country : String)
    (month : Month) : Except PError (List MergedRow × Month) :=
  match astype_pid_col df_forecast with
  | Except.error e => Except.error e
  | Except.ok dfc =>
    match market_filter dfc country with
    | Except.error e => Except.error e
    | Except.ok df_filtered =>
      let dfr := rename_months df_filtered
      match available_months dfr.cols with
      | [] => Except.error PError.noValidMonthColumns
      | m :: ms =>
        let sel := closest_month m ms month
        match select_pid_month dfr sel with
        | Except.error e => Except.error e
        | Except.ok pairs =>
          match rank_percent pairs with
          | Except.error e => Except.error e
          | Except.ok ranked =>
            let links := data_feed_links data_feed
            Except.ok (merge_links (replace_top20 ranked links) links, sel)

/-- The month-selection guard of `main` (src/app.py lines 113-123): the year
and month select boxes are only reached when at least one renamed forecast
column is a `Timestamp`; otherwise `main` shows an error and returns first. -/
def main_reaches_month_selection (cols : List Label) : Bool :=
  !(available_months (cols.map rename_label)).isEmpty

/-- Error raised while rendering the PDF: Python's `NameError` for an unbound
name. -/
inductive PdfError where
  | nameError (n : String)
deriving DecidableEq, Repr

/-- The names visible inside the body of `generate_pdf`: its parameters and
locals (`df`, `month`, `html_content`, `row`, `link`, and the throwaway loop
variable) plus the module-level globals of src/app.py (imports and top-level
functions).  `selected_month` is a local of `process_data` and of `main`, not
a global, so it is absent here. -/
def generate_pdf_scope : List String :=
  ["df", "month", "html_content", "row", "link", "_",
   "st", "pd", "np", "pdfkit", "BytesIO",
   "load_data", "parse_month_column", "process_data", "generate_pdf", "main"]

/-- Full month name, as `strftime('%B')` renders it. -/
def month_name (m : Nat) : String :=
  (["January", "February", "March", "April", "May", "June", "July",
    "August", "September", "October", "November", "December"]).getD (m - 1) "?"

/-- Line 85: the link cell, `N/A` when the joined link is `NaN`. -/
def render_link : Option String → String
  | some l => "<a href=\"" ++ l ++ "\" target=\"_blank\">View Product</a>"
  | none => "N/A"

/-- String form of the metric value cell, were it ever reached. -/
def value_str : Option ℚ → String
  | some q => toString q
  | none => "nan"

/-- One iteration of the row loop (src/app.py lines 84-86).  The f-string of
line 86 evaluates `row['Product ID (PID)']` and then the expression
`selected_month`; name resolution against `generate_pdf`'s scope fails, so a
`NameError` is raised before the row can be rendered. -/
def render_row (r : MergedRow) : Except PdfError String :=
  let linkCell := render_link r.link
  if "selected_month" ∈ generate_pdf_scope then
    Except.ok ("<tr><td>" ++ r.pid ++ "</td><td>" ++ value_str r.value ++ "</td><td>"
      ++ r.pct ++ "</td><td>" ++ linkCell ++ "</td></tr>")
  else Except.error (PdfError.nameError "selected_month")

/-- The rendered rows of the table body, in order; the first failing row
aborts the rendering, as the Python loop would. -/
def render_rows : List MergedRow → Except PdfError (List String)
  | [] => Except.ok []
  | r :: rs =>
    match render_row r with
    | Except.error e => Except.error e
    | Except.ok s =>
      match render_rows rs with
      | Except.ok ss => Except.ok (s :: ss)
      | Except.error e => Except.error e

/-- Embedding of `generate_pdf` (src/app.py lines 68-93): the HTML template
with header, the row loop, and the closing tags.  The CSS braces of the
template are escaped byte-for-byte. -/
def generate_pdf (df : List MergedRow) (month : Month) : Except PdfError String :=
  let header :=
    "<html><head><style>table \x7b width: 100%; border-collapse: collapse; \x7d "
      ++ "th, td \x7b border: 1px solid black; padding: 8px; text-align: left; \x7d"
      ++ "</style></head><body><h2>Top 20 Products for "
      ++ month_name month.month ++ " " ++ toString month.year ++ "</h2><table>"
      ++ "<tr><th>Product ID</th><th>Quantity</th><th>% of Total</th><th>Link</th></tr>"
  match render_rows df with
  | Except.ok rows => Except.ok (header ++ String.join rows ++ "</table></body></html>")
  | Except.error e => Except.error e

/-- Claim C1: on the specification's end-to-end scenario — forecast rows
`(Market="US", PID="123", "feb-25"=50)` and `(Market="US", PID="456",
"feb-25"=150)`, catalog rows `(MPL="999123", LINK="http://a")` and
`(MPL="888456", LINK="http://b")`, market `"US"`, target February 2025 — the
pipeline does not produce the claimed ranked rows: the line-38 rename turned
the labels `'Market'` and `'Product ID (PID)'` into `NaT`, so line 49's column
selection raises `KeyError` for `'Product ID (PID)'`. -/
theorem c1_end_to_end_key_error :
    process_data
      ⟨[Label.str "Market", Label.str "Product ID (PID)", Label.str "feb-25"],
       [[Cell.s "US", Cell.s "123", Cell.n 50],
        [Cell.s "US", Cell.s "456", Cell.n 150]]⟩
      [⟨some "999123", some "http://a"⟩, ⟨some "888456", some "http://b"⟩]
      "US" ⟨2025, 2⟩
      = Except.error (PError.keyError "Product ID (PID)") := by
  rfl

/-- Claim C3, counterexample: a two-row metric column holding `10` and a
missing value is not coerced to `[10, 0]`; the missing value's share is `NaN`
and the `astype(int)` of line 53 aborts the run with a `ValueError`, so a
partially-populated sheet does abort the pipeline. -/
theorem c3_missing_value_aborts_cex :
    rank_percent [("1", some 10), ("2", none)] = Except.error PError.nonFiniteToInt := by
  norm_num [rank_percent, percent_col, percent_ints, top_20, sort_desc, insert_desc, row_val,
    total_quantity, share_val, fvals_to_ints, List.filterMap_cons, List.sum_cons]

/-- Claim C4, counterexample: when the single top-20 row has quantity `0` the
subset total is `0`, the share is `0/0 = NaN`, and line 53's `astype(int)`
raises its generic non-finite `ValueError` — not the dedicated
`ZeroTotalQuantity` condition the claim names (no code path raises one). -/
theorem c4_zero_total_cex :
    rank_percent [("1", some 0)] = Except.error PError.nonFiniteToInt
    ∧ (Except.error PError.nonFiniteToInt :
        Except PError (List (String × Option ℚ × String)))
      ≠ Except.error PError.zeroTotalQuantity := by
  refine ⟨?_, by simp⟩
  norm_num [rank_percent, percent_col, percent_ints, top_20, sort_desc, insert_desc, row_val,
    total_quantity, share_val, fvals_to_ints, List.filterMap_cons, List.sum_cons]

/-- Claim C7, counterexample: with catalog identifiers `999123` and `888123`,
both having the forecast identifier `123` as a suffix, the dict comprehension
of line 60 keeps only the last match: `123` maps to `888123`, so it is not
mapped to the catalog identifier `999123` even though that one also has the
`prefix + pid` form. -/
theorem c7_last_match_cex :
    mpl_ends_with "999123" "123" = true
    ∧ pid_map_lookup ["999123", "888123"] "123" = some "888123"
    ∧ some "888123" ≠ some "999123" := by
  decide

/-- Claim C10, counterexample: a catalog row whose `MPL_PRODUCT_ID` is missing
but whose `LINK` is present is not removed before reconciliation — line 31's
`astype(str)` has already turned the missing identifier into the literal
string `"nan"`, which `dropna` keeps. -/
theorem c10_missing_mpl_kept_cex :
    data_feed_links [⟨none, some "http://x"⟩] = [("nan", "http://x")] := by
  decide

/-- Claim C9: for every ranked table with at least one row `generate_pdf`
raises `NameError` for `selected_month` — line 86 reads the name
`selected_month`, which is bound in `process_data` and in `main` but not in
`generate_pdf`'s scope — and only an empty table renders without error. -/
theorem c9_generate_pdf_name_error (df : List MergedRow) (month : Month) :
    (df ≠ [] → generate_pdf df month = Except.error (PdfError.nameError "selected_month"))
    ∧ (df = [] → ∃ s, generate_pdf df month = Except.ok s) := by
  constructor
  · intro hne
    match df with
    | [] => exact absurd rfl hne
    | r :: rs =>
      have hrow : render_row r = Except.error (PdfError.nameError "selected_month") := by
        have hscope : ("selected_month" ∈ generate_pdf_scope) = False := by decide
        simp [render_row, hscope]
      simp [generate_pdf, render_rows, hrow]
  · intro he
    subst he
    exact ⟨_, rfl⟩

/-- Witness for C9 at a concrete one-row table. -/
theorem c9_generate_pdf_name_error_witness :
    generate_pdf [⟨"888456", some 150, "75%", some "http://b"⟩] ⟨2025, 2⟩
      = Except.error (PdfError.nameError "selected_month") :=
  (c9_generate_pdf_name_error [⟨"888456", some 150, "75%", some "http://b"⟩] ⟨2025, 2⟩).1
    (List.cons_ne_nil _ _)

lemma mem_drop_dup_aux {p : String × String} :
    ∀ (seen : List String) (l : List (String × String)), p ∈ drop_dup_aux seen l → p ∈ l := by
  intro seen l
  induction l generalizing seen with
  | nil => intro h; exact absurd h (by simp [drop_dup_aux])
  | cons q rest ih =>
    intro h
    rw [drop_dup_aux] at h
    by_cases hs : q.1 ∈ seen
    · rw [if_pos hs] at h
      exact List.mem_cons_of_mem _ (ih seen h)
    · rw [if_neg hs] at h
      rcases List.mem_cons.1 h with h1 | h1
      · exact h1 ▸ List.mem_cons_self _ _
      · exact List.mem_cons_of_mem _ (ih _ h1)

lemma mem_drop_duplicates_first {p : String × String} {l : List (String × String)}
    (h : p ∈ drop_duplicates_first l) : p ∈ l :=
  mem_drop_dup_aux [] l h

/-- A string is a suffix of itself under `endswith`. -/
lemma mpl_ends_with_self (s : String) : mpl_ends_with s s = true := by
  simp [mpl_ends_with]

/-- Shared helper: a pid with no `endswith` match among the catalog keys
passes through `replace` unchanged, and the subsequent left join attaches a
null link. -/
lemma replace_merge_no_match (links : List (String × String)) (pid : String)
    (v : Option ℚ) (pct : String)
    (h : ∀ p ∈ links, mpl_ends_with p.1 pid = false) :
    replace_one (links.map (fun p => p.1)) (pid, v, pct) = (pid, v, pct)
    ∧ (merge_one (drop_duplicates_first links) (pid, v, pct)).link = none := by
  have hfil : (links.map (fun p => p.1)).filter (fun m => mpl_ends_with m pid) = [] := by
    rw [List.filter_eq_nil_iff]
    intro m hm
    obtain ⟨p, hp, rfl⟩ := List.mem_map.1 hm
    simp [h p hp]
  have hrep : replace_one (links.map (fun p => p.1)) (pid, v, pct) = (pid, v, pct) := by
    unfold replace_one pid_map_lookup
    rw [hfil]
    rfl
  refine ⟨hrep, ?_⟩
  have hfind : (drop_duplicates_first links).find? (fun q => q.1 == pid) = none := by
    rw [List.find?_eq_none]
    intro x hx hbeq
    have hxeq : x.1 = pid := by
      simpa using hbeq
    have hsuf := h x (mem_drop_duplicates_first hx)
    rw [hxeq] at hsuf
    rw [mpl_ends_with_self pid] at hsuf
    cases hsuf
  unfold merge_one
  rw [hfind]
  rfl

/-- Claim C7, amended: a forecast pid maps to the last catalog identifier in
input order that ends with it — in particular, when exactly one catalog
identifier ends with the pid, the pid maps to it — and a pid ending no
catalog identifier passes through `replace` unchanged, after which the left
join yields a null link field rather than a failure. -/
theorem c7_reconciler_amended (links : List (String × String)) (mpl pid : String)
    (v : Option ℚ) (pct : String) :
    ((links.map (fun p => p.1)).filter (fun m => mpl_ends_with m pid) = [mpl] →
      replace_one (links.map (fun p => p.1)) (pid, v, pct) = (mpl, v, pct))
    ∧ ((∀ p ∈ links, mpl_ends_with p.1 pid = false) →
      replace_one (links.map (fun p => p.1)) (pid, v, pct) = (pid, v, pct)
      ∧ (merge_one (drop_duplicates_first links)
          (replace_one (links.map (fun p => p.1)) (pid, v, pct))).link = none) := by
  constructor
  · intro h
    unfold replace_one pid_map_lookup
    rw [h]
    rfl
  · intro h
    have hm := replace_merge_no_match links pid v pct h
    exact ⟨hm.1, by rw [hm.1]; exact hm.2⟩

/-- Witness for C7 at concrete identifiers: `456` maps onto the unique
matching catalog identifier `888456`; `123` has no match, stays `123`, and its
joined link is null. -/
theorem c7_reconciler_amended_witness :
    replace_one ["888456"] ("456", (some 150 : Option ℚ), "75%") = ("888456", some 150, "75%")
    ∧ replace_one ["888456"] ("123", (some 50 : Option ℚ), "25%") = ("123", some 50, "25%")
    ∧ (merge_one (drop_duplicates_first [("888456", "http://b")])
        (replace_one ["888456"] ("123", (some 50 : Option ℚ), "25%"))).link = none := by
  refine ⟨?_, ?_, ?_⟩
  · exact (c7_reconciler_amended [("888456", "http://b")] "888456" "456" (some 150) "75%").1
      (by decide)
  · exact ((c7_reconciler_amended [("888456", "http://b")] "888456" "123" (some 50) "25%").2
      (by decide)).1
  · exact ((c7_reconciler_amended [("888456", "http://b")] "888456" "123" (some 50) "25%").2
      (by decide)).2

lemma mem_data_feed_links {feed : List FeedRow} {p : String × String}
    (hp : p ∈ data_feed_links feed) :
    ∃ r ∈ feed, r.link = some p.2 ∧ p.1 = astype_str_opt r.mpl := by
  induction feed with
  | nil => exact absurd hp (by simp [data_feed_links])
  | cons r rest ih =>
    unfold data_feed_links at hp
    rw [List.filterMap_cons] at hp
    cases hl : r.link with
    | none =>
      rw [hl] at hp
      obtain ⟨s, hs, h1, h2⟩ := ih hp
      exact ⟨s, List.mem_cons_of_mem _ hs, h1, h2⟩
    | some l =>
      rw [hl] at hp
      rcases List.mem_cons.1 hp with h1 | h1
      · refine ⟨r, List.mem_cons_self _ _, ?_, ?_⟩
        · rw [hl, h1]
        · rw [h1]
      · obtain ⟨s, hs, hh1, hh2⟩ := ih h1
        exact ⟨s, List.mem_cons_of_mem _ hs, hh1, hh2⟩

lemma data_feed_links_filter (feed : List FeedRow) :
    data_feed_links feed = data_feed_links (feed.filter (fun r => r.link.isSome)) := by
  induction feed with
  | nil => rfl
  | cons r rest ih =>
    simp only [data_feed_links] at ih ⊢
    rw [List.filter_cons]
    cases hl : r.link with
    | none =>
      simp only [hl, Option.isSome_none, Bool.false_eq_true, if_false]
      rw [List.filterMap_cons]
      simp only [hl]
      exact ih
    | some l =>
      simp only [hl, Option.isSome_some, if_true]
      rw [List.filterMap_cons, List.filterMap_cons]
      simp only [hl]
      rw [ih]

/-- Claim C10, amended: `dropna` removes exactly the catalog rows whose `LINK`
is missing (a missing `MPL_PRODUCT_ID` was already stringified to `"nan"` by
line 31 and survives), and a forecast identifier all of whose suffix matches
sit in rows with a null link is left unmapped by the reconciler and receives
a null link from the left join, exactly as if no catalog match existed. -/
theorem c10_dropna_links_amended (feed : List FeedRow) (pid : String)
    (v : Option ℚ) (pct : String) :
    data_feed_links feed = data_feed_links (feed.filter (fun r => r.link.isSome))
    ∧ ((∀ r ∈ feed, r.link.isSome = true → mpl_ends_with (astype_str_opt r.mpl) pid = false) →
      replace_one ((data_feed_links feed).map (fun p => p.1)) (pid, v, pct) = (pid, v, pct)
      ∧ (merge_one (drop_duplicates_first (data_feed_links feed))
          (replace_one ((data_feed_links feed).map (fun p => p.1)) (pid, v, pct))).link
        = none) := by
  constructor
  · exact data_feed_links_filter feed
  · intro h
    have hl : ∀ p ∈ data_feed_links feed, mpl_ends_with p.1 pid = false := by
      intro p hp
      obtain ⟨r, hr, hlink, hfst⟩ := mem_data_feed_links hp
      have hs : r.link.isSome = true := by rw [hlink]; rfl
      have := h r hr hs
      rw [hfst]
      exact this
    have hm := replace_merge_no_match (data_feed_links feed) pid v pct hl
    exact ⟨hm.1, by rw [hm.1]; exact hm.2⟩

/-- Witness for C10: a catalog whose only row matches pid `123` but has a null
link; the row is dropped, the pid stays unmapped, and the joined link is
null. -/
theorem c10_dropna_links_amended_witness :
    data_feed_links [⟨some "999123", none⟩]
      = data_feed_links ([⟨some "999123", none⟩].filter (fun r => r.link.isSome))
    ∧ replace_one ((data_feed_links [⟨some "999123", none⟩]).map (fun p => p.1))
        ("123", (some 50 : Option ℚ), "25%") = ("123", some 50, "25%")
    ∧ (merge_one (drop_duplicates_first (data_feed_links [⟨some "999123", none⟩]))
        (replace_one ((data_feed_links [⟨some "999123", none⟩]).map (fun p => p.1))
          ("123", (some 50 : Option ℚ), "25%"))).link = none := by
  refine ⟨(c10_dropna_links_amended [⟨some "999123", none⟩] "123" (some 50) "25%").1,
    ((c10_dropna_links_amended [⟨some "999123", none⟩] "123" (some 50) "25%").2 (by decide)).1,
    ((c10_dropna_links_amended [⟨some "999123", none⟩] "123" (some 50) "25%").2 (by decide)).2⟩

/-- Finiteness of an intermediate share value. -/
def is_fin : FVal → Bool
  | FVal.fin _ => true
  | _ => false

lemma fvals_to_ints_error (l : List FVal) (h : ∃ fv ∈ l, is_fin fv = false) :
    fvals_to_ints l = Except.error PError.nonFiniteToInt := by
  induction l with
  | nil =>
    obtain ⟨fv, hm, _⟩ := h
    cases hm
  | cons a t ih =>
    obtain ⟨fv, hm, hfin⟩ := h
    cases a with
    | fin q =>
      have ht : ∃ fv ∈ t, is_fin fv = false := by
        rcases List.mem_cons.1 hm with h1 | h1
        · rw [h1] at hfin
          cases hfin
        · exact ⟨fv, h1, hfin⟩
      simp [fvals_to_ints, ih ht]
    | nan => rfl
    | inf => rfl
    | ninf => rfl

lemma fvals_to_ints_fin (l : List ℚ) :
    fvals_to_ints (l.map FVal.fin) = Except.ok (l.map roundHalfEven) := by
  induction l with
  | nil => rfl
  | cons a t ih => simp [fvals_to_ints, ih]

lemma rank_percent_error (rows : List (String × Option ℚ)) (e : PError)
    (h : percent_ints rows = Except.error e) : rank_percent rows = Except.error e := by
  simp [rank_percent, percent_col, h]

/-- Claim C3, amended: the metric column is used without any numeric
coercion — missing values are not mapped to zero.  Whenever a missing value
survives into the top-20 subset, its share is `NaN` and the `astype(int)` of
line 53 aborts the run with the non-finite-conversion `ValueError`; a
partially-populated sheet does abort the pipeline.  (Missing values outside
the top 20 are merely sorted last and skipped by the sum.) -/
theorem c3_no_numeric_coercion (rows : List (String × Option ℚ))
    (h : none ∈ (top_20 rows).map (fun r => r.2)) :
    rank_percent rows = Except.error PError.nonFiniteToInt := by
  apply rank_percent_error
  apply fvals_to_ints_error
  obtain ⟨r, hr, hr2⟩ := List.mem_map.1 h
  refine ⟨share_val (total_quantity (top_20 rows)) r.2, List.mem_map_of_mem _ hr, ?_⟩
  rw [hr2]
  rfl

/-- Witness for C3 at a one-row table whose only metric cell is missing. -/
theorem c3_no_numeric_coercion_witness :
    rank_percent [("a", none)] = Except.error PError.nonFiniteToInt :=
  c3_no_numeric_coercion [("a", none)] (by decide)

/-- A share against a zero total is never finite: `NaN` for a missing or zero
value, a signed infinity otherwise. -/
lemma share_val_zero_not_fin (v : Option ℚ) : is_fin (share_val 0 v) = false := by
  cases v with
  | none => rfl
  | some q =>
    simp only [share_val, if_pos rfl]
    split_ifs <;> rfl

/-- Claim C4, amended: when the metric values of the (nonempty) top-20 subset
sum to zero, every share is non-finite (`0/0 = NaN`, `±x/0 = ±inf`) and the
pipeline aborts with the generic non-finite-to-integer `ValueError` of
line 53's `astype(int)` — the same error as any other non-finite share — not
with a dedicated `ZeroTotalQuantity` condition; no `NaN` or infinite
percentage is returned, because the run aborts instead. -/
theorem c4_zero_total_generic_error (rows : List (String × Option ℚ))
    (h0 : total_quantity (top_20 rows) = 0) (hne : top_20 rows ≠ []) :
    rank_percent rows = Except.error PError.nonFiniteToInt := by
  apply rank_percent_error
  apply fvals_to_ints_error
  obtain ⟨r, hr⟩ := List.exists_mem_of_ne_nil (top_20 rows) hne
  refine ⟨share_val (total_quantity (top_20 rows)) r.2, List.mem_map_of_mem _ hr, ?_⟩
  rw [h0]
  exact share_val_zero_not_fin r.2

/-- Witness for C4 at a one-row table with quantity `0`. -/
theorem c4_zero_total_generic_error_witness :
    rank_percent [("a", (some 0 : Option ℚ))] = Except.error PError.nonFiniteToInt :=
  c4_zero_total_generic_error [("a", some 0)]
    (by simp [total_quantity, top_20, sort_desc, insert_desc, row_val, List.filterMap_cons])
    (by decide)

lemma col_index?_of_mem {cols : List Label} {l : Label} (h : l ∈ cols) :
    ∃ i, col_index? cols l = some i := by
  induction cols with
  | nil => cases h
  | cons c cs ih =>
    by_cases hc : c = l
    · exact ⟨0, by simp [col_index?, hc]⟩
    · rcases List.mem_cons.1 h with h1 | h1
      · exact absurd h1.symm hc
      · obtain ⟨i, hi⟩ := ih h1
        exact ⟨i + 1, by simp [col_index?, hc, hi]⟩

/-- Claim C8: when no (string) column label of the forecast survives renaming
as a `Timestamp` — and the mandatory `Market` and `Product ID (PID)` columns
exist, so the earlier lines run — `process_data` stops at lines 43-44 with its
dedicated `ValueError` (the specification's `NoValidMonthColumns`), returning
an error rather than a silent empty result, and `main` (lines 114-118) shows
an error and returns before the year/month selection widgets are built. -/
theorem c8_no_valid_month_columns (f : Frame) (feed : List FeedRow) (country : String)
    (month : Month)
    (hpid : Label.str "Product ID (PID)" ∈ f.cols)
    (hmkt : Label.str "Market" ∈ f.cols)
    (hnone : available_months (f.cols.map rename_label) = []) :
    process_data f feed country month = Except.error PError.noValidMonthColumns
    ∧ main_reaches_month_selection f.cols = false := by
  obtain ⟨i, hi⟩ := col_index?_of_mem hpid
  obtain ⟨j, hj⟩ := col_index?_of_mem hmkt
  constructor
  · unfold process_data astype_pid_col
    rw [hi]
    unfold market_filter
    dsimp only
    rw [hj]
    dsimp only
    unfold rename_months available_months
    dsimp only
    unfold available_months at hnone
    rw [hnone]
  · unfold main_reaches_month_selection
    rw [hnone]
    rfl

/-- Witness for C8: a forecast with only the `Market` and `Product ID (PID)`
columns has no month candidates; the pipeline errors and `main` never reaches
the month-selection widgets. -/
theorem c8_no_valid_month_columns_witness :
    process_data ⟨[Label.str "Market", Label.str "Product ID (PID)"], []⟩ [] "US" ⟨2025, 2⟩
      = Except.error PError.noValidMonthColumns
    ∧ main_reaches_month_selection [Label.str "Market", Label.str "Product ID (PID)"] = false :=
  c8_no_valid_month_columns ⟨[Label.str "Market", Label.str "Product ID (PID)"], []⟩ [] "US"
    ⟨2025, 2⟩ (by decide) (by decide) (by decide)

/-- Half-even rounding moves a rational by at most one half. -/
lemma abs_roundHalfEven_sub_le (q : ℚ) : |((roundHalfEven q : ℤ) : ℚ) - q| ≤ 1/2 := by
  have h0 : (⌊q⌋ : ℚ) ≤ q := Int.floor_le q
  have h1 : q < ⌊q⌋ + 1 := Int.lt_floor_add_one q
  unfold roundHalfEven
  split_ifs with hc1 hc2 hc3
  · rw [abs_le]
    constructor <;> linarith
  · rw [abs_le]
    push_cast
    constructor <;> linarith
  · rw [abs_le]
    constructor <;> linarith
  · rw [abs_le]
    push_cast
    constructor <;> linarith

/-- Rounding a list of rationals perturbs its sum by at most a half per
element. -/
lemma abs_sum_round_sub_le (l : List ℚ) :
    |(((l.map roundHalfEven).sum : ℤ) : ℚ) - l.sum| ≤ (l.length : ℚ) * (1/2) := by
  induction l with
  | nil => simp
  | cons a t ih =>
    have ha := abs_roundHalfEven_sub_le a
    simp only [List.map_cons, List.sum_cons, List.length_cons]
    have hsplit :
        (((roundHalfEven a + (t.map roundHalfEven).sum : ℤ) : ℚ)) - (a + t.sum)
          = (((roundHalfEven a : ℤ) : ℚ) - a)
            + ((((t.map roundHalfEven).sum : ℤ) : ℚ) - t.sum) := by
      push_cast
      ring
    rw [hsplit]
    calc |(((roundHalfEven a : ℤ) : ℚ) - a) + ((((t.map roundHalfEven).sum : ℤ) : ℚ) - t.sum)|
        ≤ |((roundHalfEven a : ℤ) : ℚ) - a| + |(((t.map roundHalfEven).sum : ℤ) : ℚ) - t.sum| :=
          abs_add _ _
      _ ≤ 1/2 + (t.length : ℚ) * (1/2) := add_le_add ha ih
      _ = (((t.length + 1 : ℕ)) : ℚ) * (1/2) := by push_cast; ring

lemma list_sum_map_mul_const (l : List ℚ) (c : ℚ) :
    (l.map (fun v => v * c)).sum = l.sum * c := by
  induction l with
  | nil => simp
  | cons a t ih => simp [ih, add_mul]

/-- Shares of a nonzero total sum to exactly `100`. -/
lemma sum_shares (l : List ℚ) (t : ℚ) (ht : t ≠ 0) (h : l.sum = t) :
    (l.map (fun v => v / t * 100)).sum = 100 := by
  have hfun : (fun v : ℚ => v / t * 100) = fun v => v * (100 / t) := by
    funext v
    ring
  rw [hfun, list_sum_map_mul_const, h]
  field_simp

/-- When every metric cell is present, the `skipna` sum is the plain sum of
the values. -/
lemma filterMap_eq_map_row_val (l : List (String × Option ℚ)) (h : ∀ r ∈ l, r.2.isSome) :
    l.filterMap (fun r => r.2) = l.map row_val := by
  induction l with
  | nil => rfl
  | cons a t ih =>
    obtain ⟨v, hv⟩ := Option.isSome_iff_exists.1 (h a (List.mem_cons_self a t))
    rw [List.filterMap_cons, List.map_cons]
    simp only [hv, row_val, Option.getD_some]
    rw [ih (fun r hr => h r (List.mem_cons_of_mem _ hr))]

/-- With all cells present and a nonzero total, every share is the finite
rational `v / total * 100`. -/
lemma map_share_eq (l : List (String × Option ℚ)) (t : ℚ) (ht : ¬ t = 0)
    (h : ∀ r ∈ l, r.2.isSome) :
    l.map (fun r => share_val t r.2)
      = (l.map row_val).map (fun v => FVal.fin (v / t * 100)) := by
  induction l with
  | nil => rfl
  | cons a s ih =>
    obtain ⟨v, hv⟩ := Option.isSome_iff_exists.1 (h a (List.mem_cons_self a s))
    simp only [List.map_cons]
    rw [ih (fun r hr => h r (List.mem_cons_of_mem _ hr))]
    simp [share_val, hv, ht, row_val]

/-- Claim C6: when every top-20 metric cell is present and the subset total is
nonzero, each displayed share is `round(100 * value / subset_sum)` — the
denominator being the sum over the top-20 subset only — rendered as an
integer with a trailing `%`, and the integer shares sum to `100` up to at most
one unit of rounding error per displayed row. -/
theorem c6_share_of_total (rows : List (String × Option ℚ))
    (hall : ∀ r ∈ top_20 rows, r.2.isSome)
    (htot : total_quantity (top_20 rows) ≠ 0) :
    percent_ints rows
      = Except.ok (((top_20 rows).map row_val).map
          (fun v => roundHalfEven (100 * v / total_quantity (top_20 rows))))
    ∧ percent_col rows
      = Except.ok ((((top_20 rows).map row_val).map
          (fun v => roundHalfEven (100 * v / total_quantity (top_20 rows)))).map
            (fun z => toString z ++ "%"))
    ∧ |(((((top_20 rows).map row_val).map
          (fun v => roundHalfEven (100 * v / total_quantity (top_20 rows)))).sum : ℤ) : ℚ)
          - 100|
        ≤ ((top_20 rows).length : ℚ) := by
  have hqfun : (fun v : ℚ => roundHalfEven (100 * v / total_quantity (top_20 rows)))
      = fun v => roundHalfEven (v / total_quantity (top_20 rows) * 100) := by
    funext v
    rw [show (100 : ℚ) * v / total_quantity (top_20 rows)
        = v / total_quantity (top_20 rows) * 100 from by ring]
  have hsum : ((top_20 rows).map row_val).sum = total_quantity (top_20 rows) := by
    rw [total_quantity, filterMap_eq_map_row_val _ hall]
  have hints : percent_ints rows
      = Except.ok (((top_20 rows).map row_val).map
          (fun v => roundHalfEven (100 * v / total_quantity (top_20 rows)))) := by
    rw [percent_ints, map_share_eq _ _ htot hall, hqfun]
    rw [show ((top_20 rows).map row_val).map
          (fun v => FVal.fin (v / total_quantity (top_20 rows) * 100))
        = (((top_20 rows).map row_val).map
            (fun v => v / total_quantity (top_20 rows) * 100)).map FVal.fin from by
      simp [List.map_map, Function.comp]]
    rw [fvals_to_ints_fin, List.map_map]
    rfl
  refine ⟨hints, by rw [percent_col, hints], ?_⟩
  rw [hqfun]
  rw [show (((top_20 rows).map row_val).map
        (fun v => roundHalfEven (v / total_quantity (top_20 rows) * 100)))
      = ((((top_20 rows).map row_val).map
          (fun v => v / total_quantity (top_20 rows) * 100)).map roundHalfEven) from by
    simp [List.map_map, Function.comp]]
  have h100 : (((top_20 rows).map row_val).map
      (fun v => v / total_quantity (top_20 rows) * 100)).sum = 100 :=
    sum_shares _ _ htot hsum
  have hlen : ((((top_20 rows).map row_val).map
      (fun v => v / total_quantity (top_20 rows) * 100)).length : ℚ)
      = ((top_20 rows).length : ℚ) := by
    rw [List.length_map, List.length_map]
  have hb := abs_sum_round_sub_le (((top_20 rows).map row_val).map
      (fun v => v / total_quantity (top_20 rows) * 100))
  rw [h100, hlen] at hb
  have hnn : (0 : ℚ) ≤ ((top_20 rows).length : ℚ) := Nat.cast_nonneg _
  calc |(((((top_20 rows).map row_val).map
        (fun v => v / total_quantity (top_20 rows) * 100)).map roundHalfEven).sum : ℚ) - 100|
      ≤ ((top_20 rows).length : ℚ) * (1/2) := hb
    _ ≤ ((top_20 rows).length : ℚ) := by linarith

/-- Witness for C6 at the two-row table with quantities `50` and `150`. -/
theorem c6_share_of_total_witness :
    percent_ints [("123", (some 50 : Option ℚ)), ("456", some 150)]
      = Except.ok (((top_20 [("123", (some 50 : Option ℚ)), ("456", some 150)]).map row_val).map
          (fun v => roundHalfEven
            (100 * v / total_quantity (top_20 [("123", (some 50 : Option ℚ)), ("456", some 150)]))))
    ∧ percent_col [("123", (some 50 : Option ℚ)), ("456", some 150)]
      = Except.ok ((((top_20 [("123", (some 50 : Option ℚ)), ("456", some 150)]).map row_val).map
          (fun v => roundHalfEven
            (100 * v / total_quantity (top_20 [("123", (some 50 : Option ℚ)), ("456", some 150)])))).map
            (fun z => toString z ++ "%"))
    ∧ |(((((top_20 [("123", (some 50 : Option ℚ)), ("456", some 150)]).map row_val).map
          (fun v => roundHalfEven
            (100 * v / total_quantity (top_20 [("123", (some 50 : Option ℚ)), ("456", some 150)])))).sum : ℤ) : ℚ)
          - 100|
        ≤ ((top_20 [("123", (some 50 : Option ℚ)), ("456", some 150)]).length : ℚ) :=
  c6_share_of_total [("123", some 50), ("456", some 150)]
    (by decide)
    (by norm_num [total_quantity, top_20, sort_desc, insert_desc, row_val,
      List.filterMap_cons, List.sum_cons])
